import Mathlib

/-!
Verification development for the bloodwork-backend diagnostic pipeline.

The definitions below are a shallow embedding of the Python source:

* `SequenceCounterRepository.get_next_id` and
  `DatabaseService.get_next_sequential_id` embed the sequence allocator
  (src/app/repositories/sequence_counter_repository.py,
  src/app/services/database_service.py).
* `AiDiagnosticRepository.create`, `get_next_sequence_number` and
  `update_processing_info` embed the diagnostic record store
  (src/app/repositories/ai_diagnostic_repository.py).
* `PdfImageConverter.convert_pdf_to_image_list` embeds the page renderer
  (src/app/utils/file_utils.py).
* `BloodworkAnalysisService.analyze_bloodwork_images` embeds the vision
  analysis client (src/app/services/openai_service.py).
* `BloodworkPdfAnalysisService.process_uploaded_pdf_in_background` and
  `perform_ai_analysis_and_save_results` embed the orchestrator
  (src/app/services/pdf_analysis_service.py), with the observable system
  state (document store, counters, per-upload analysis directories,
  pending background tasks) passed explicitly.

Python exceptions are modelled with `Except`; calls into the MongoDB
backing store that may themselves raise are modelled with `StoreResult`,
whose `unavailable` constructor stands for the raised exception.
Fresh values produced at run time (uuid4, time.time, datetime.now) are
taken as explicit parameters.
-/

/-- Decimal digits of `v`, least significant first, computed with
explicit fuel so that the kernel can evaluate it. -/
def decDigitsRev (fuel v : Nat) : List Nat :=
  match fuel with
  | 0 => []
  | fuel + 1 => if v < 10 then [v] else v % 10 :: decDigitsRev fuel (v / 10)

/-- Python's `str(v)` for a natural number: decimal digits, most
significant first, with `0` rendered as "0". -/
def decRepr (v : Nat) : String :=
  String.mk (((decDigitsRev (v + 1) v).reverse).map Nat.digitChar)

/-- Python's zero padding to width 3: prepend zeros when the rendered
string is shorter than 3 characters. -/
def pad3 (s : String) : String :=
  if s.length < 3 then String.mk (List.replicate (3 - s.length) '0') ++ s else s

/-- Python's format specifier `{v:03d}`. -/
def fmt03 (v : Nat) : String :=
  pad3 (decRepr v)

/-- Outcome of a call into the MongoDB backing store: either the value the
driver returned, or `unavailable` when the driver raised. -/
inductive StoreResult (α : Type) where
  | ok (a : α)
  | unavailable
deriving DecidableEq

/-- Counter-type to prefix mapping from
`SequenceCounterRepository.get_next_id` (sequence_counter_repository.py,
lines 31-38). -/
def prefMap : List (String × String) :=
  [("patient", "PAT"), ("veterinarian", "VET"), ("technician", "TEC"),
   ("admin", "ADM"), ("diagnostic", "DGN"), ("token", "TKN")]

/-- Prefix resolution with the "UNK" default
(`prefix_map.get(counter_type, "UNK")`). -/
def prefFor (counter_type : String) : String :=
  (prefMap.lookup counter_type).getD "UNK"

/-- Shallow embedding of `SequenceCounterRepository.get_next_id`
(sequence_counter_repository.py, lines 20-73).  The counters collection is
an association list from `_id` to `current_value`; `find_one_and_update`
with `$inc` and upsert atomically bumps the counter (a missing document
counts as 0) and returns the post-increment value.  When the store call
raises, the except branch returns the timestamp fallback instead of
re-raising; `timestamp` models `int(time.time())`. -/
def SequenceCounterRepository.get_next_id (counter_type : String)
    (store : StoreResult (List (String × Nat))) (timestamp : Nat) :
    String × StoreResult (List (String × Nat)) :=
  let counter_id := counter_type ++ "_seq"
  let pf := prefFor counter_type
  match store with
  | .ok counters =>
      let next_value := ((counters.lookup counter_id).getD 0) + 1
      let updated := (counters.filter (fun kv => kv.1 ≠ counter_id)) ++ [(counter_id, next_value)]
      (pf ++ "-" ++ fmt03 next_value, .ok updated)
  | .unavailable => (pf ++ "-" ++ decRepr timestamp, .unavailable)

/-- Shallow embedding of `DatabaseService.get_next_sequential_id`
(database_service.py, lines 190-237): identical atomic increment against
the `counters` collection keyed by the entity type itself (field `seq`),
with the same "UNK" default and timestamp fallback. -/
def DatabaseService.get_next_sequential_id (entity_type : String)
    (store : StoreResult (List (String × Nat))) (timestamp : Nat) :
    String × StoreResult (List (String × Nat)) :=
  let pf := prefFor entity_type
  match store with
  | .ok counters =>
      let next_value := ((counters.lookup entity_type).getD 0) + 1
      let updated := (counters.filter (fun kv => kv.1 ≠ entity_type)) ++ [(entity_type, next_value)]
      (pf ++ "-" ++ fmt03 next_value, .ok updated)
  | .unavailable => (pf ++ "-" ++ decRepr timestamp, .unavailable)

/-- Fields of the `AiDiagnostic` Pydantic model relevant to the claims
(database_models.py, lines 78-118).  Note that the model declares no
status field; `processing_info` is an opaque key/value document. -/
structure AiDiagnostic where
  diagnostic_id : String
  patient_id : String
  sequence_number : Nat
  test_date : Nat
  processing_info : List (String × String)
  created_by : String
  created_at : Nat
deriving DecidableEq

/-- The `ai_diagnostics` collection: documents keyed by `_id`. -/
abbrev DiagStore : Type := List (String × AiDiagnostic)

/-- Motor's `insert_one` on a collection keyed by `_id`: raises a
duplicate-key error when the `_id` is already present, otherwise appends
the document. -/
def insert_one (store : DiagStore) (d : AiDiagnostic) : Except String DiagStore :=
  if (List.lookup d.diagnostic_id store).isSome then
    Except.error "E11000 duplicate key error"
  else
    Except.ok (store ++ [(d.diagnostic_id, d)])

/-- Shallow embedding of `AiDiagnosticRepository.create`
(ai_diagnostic_repository.py, lines 25-46).  When the incoming id is empty
or "placeholder", a fresh id is drawn from
`DatabaseService.get_next_sequential_id "diagnostic"`; `created_at` is
set to `now`; then `insert_one` runs.  The enclosing
`except Exception: ... return None` turns every failure (a duplicate key
included) into the ordinary non-result `none` with the store unchanged. -/
def AiDiagnosticRepository.create (diagnostic : AiDiagnostic)
    (counters : StoreResult (List (String × Nat))) (timestamp now : Nat)
    (store : DiagStore) : Option AiDiagnostic × DiagStore :=
  let d0 :=
    if diagnostic.diagnostic_id = "" ∨ diagnostic.diagnostic_id = "placeholder" then
      { diagnostic with
        diagnostic_id := (DatabaseService.get_next_sequential_id "diagnostic" counters timestamp).1 }
    else diagnostic
  let d1 := { d0 with created_at := now }
  match insert_one store d1 with
  | .ok newStore => (some d1, newStore)
  | .error _ => (none, store)

/-- The record for `patient_id` with the greatest `sequence_number`, as
returned by `find_one(..., sort=[("sequence_number", -1)])`. -/
def maxSeqDoc (store : DiagStore) (patient_id : String) : Option AiDiagnostic :=
  (store.map Prod.snd).foldl
    (fun best d =>
      if d.patient_id = patient_id then
        match best with
        | none => some d
        | some b => if b.sequence_number < d.sequence_number then some d else some b
      else best)
    none

/-- Shallow embedding of `AiDiagnosticRepository.get_next_sequence_number`
(ai_diagnostic_repository.py, lines 126-139).  The store lookup is a
`StoreResult`: when the driver raises, the except branch returns 1; a
patient with no prior diagnostics also yields 1. -/
def AiDiagnosticRepository.get_next_sequence_number (patient_id : String)
    (lookup : StoreResult DiagStore) : Nat :=
  match lookup with
  | .ok store =>
      match maxSeqDoc store patient_id with
      | some d => d.sequence_number + 1
      | none => 1
  | .unavailable => 1

/-- Shallow embedding of `AiDiagnosticRepository.update_processing_info`
(ai_diagnostic_repository.py, lines 180-196): a targeted `$set` of the
`processing_info` field of the record matching `_id`.  The returned Bool
is `modified_count > 0`: true only when a record matched and the `$set`
actually changed it (a no-op `$set` modifies nothing and yields false,
as does a missing `_id`). -/
def AiDiagnosticRepository.update_processing_info (diagnostic_id : String)
    (info : List (String × String)) (store : DiagStore) : Bool × DiagStore :=
  ((match List.lookup diagnostic_id store with
    | some d => decide (d.processing_info ≠ info)
    | none => false),
   store.map (fun kv =>
     if kv.1 = diagnostic_id then (kv.1, { kv.2 with processing_info := info }) else kv))

/-- A PDF binary as the page renderer sees it: the file can be missing,
`fitz.open` can raise, or the document has a list of pages of which each
either renders or makes `get_pixmap`/`save` raise. -/
inductive PdfDoc where
  | missing
  | unopenable
  | pages (ps : List Bool)
deriving DecidableEq

/-- Failure kinds of `PdfImageConverter.convert_pdf_to_image_list`:
`FileNotFoundError`, the RuntimeError raised when `fitz.open` fails, and
the RuntimeError "Failed to convert page n" raised for one page. -/
inductive ConvErr where
  | fileNotFound
  | openFailed
  | pageFailed (pageNum : Nat)
deriving DecidableEq

/-- Shallow embedding of `PdfImageConverter._convert_single_page`
(file_utils.py, lines 109-159): renders page `page_index` to
"{filename_prefix}_page_{page_index+1}.png" or raises a RuntimeError
naming the 1-based page number. -/
def PdfImageConverter.convert_single_page (filename_pre : String)
    (page_index : Nat) (renders : Bool) : Except ConvErr String :=
  if renders then
    Except.ok (filename_pre ++ "_page_" ++ decRepr (page_index + 1) ++ ".png")
  else
    Except.error (ConvErr.pageFailed (page_index + 1))

/-- The page loop of `convert_pdf_to_image_list` (file_utils.py, lines
89-97): pages are converted in document order and an exception from any
page propagates, discarding the paths accumulated so far. -/
def convertLoop (filename_pre : String) (ps : List Bool) (idx : Nat) :
    Except ConvErr (List String) :=
  match ps with
  | [] => Except.ok []
  | renders :: rest =>
      match PdfImageConverter.convert_single_page filename_pre idx renders with
      | .error e => Except.error e
      | .ok path =>
          match convertLoop filename_pre rest (idx + 1) with
          | .error e => Except.error e
          | .ok paths => Except.ok (path :: paths)

/-- Shallow embedding of `PdfImageConverter.convert_pdf_to_image_list`
(file_utils.py, lines 34-107). -/
def PdfImageConverter.convert_pdf_to_image_list (pdf : PdfDoc)
    (filename_pre : String) : Except ConvErr (List String) :=
  match pdf with
  | .missing => Except.error ConvErr.fileNotFound
  | .unopenable => Except.error ConvErr.openFailed
  | .pages ps => convertLoop filename_pre ps 0

/-- Shape of an OpenAI chat-completions reply as
`_extract_analysis_result` reads it. -/
structure ApiMessage where
  content : String
deriving DecidableEq

structure ApiChoice where
  message : ApiMessage
deriving DecidableEq

structure ApiResponse where
  choices : List ApiChoice
deriving DecidableEq

/-- What the HTTP call in `_make_api_request` can do:
`requests.post` raises a connection-level `RequestException`
(`transportFailure`), `raise_for_status` raises an `HTTPError` — itself a
`RequestException` — on a non-2xx status (`statusFailure`),
`response.json()` raises a decode error (`parseFailure`), or a body is
returned. -/
inductive HttpResult where
  | transportFailure (detail : String)
  | statusFailure (code : Nat) (detail : String)
  | parseFailure (detail : String)
  | ok (body : ApiResponse)
deriving DecidableEq

/-- Shallow embedding of `BloodworkAnalysisService._make_api_request`
(openai_service.py, lines 237-279).  Both the transport failure and the
non-2xx status land in the single `except requests.RequestException`
handler and are re-raised with the same message template; the JSON decode
failure has its own handler and template. -/
def BloodworkAnalysisService.make_api_request (r : HttpResult) :
    Except String ApiResponse :=
  match r with
  | .transportFailure d => Except.error ("OpenAI API request failed: " ++ d)
  | .statusFailure _ d => Except.error ("OpenAI API request failed: " ++ d)
  | .parseFailure d => Except.error ("Failed to parse OpenAI API response: " ++ d)
  | .ok body => Except.ok body

/-- Python whitespace as `str.strip` removes it (the characters that
occur in this code path). -/
def isSpaceChar (c : Char) : Bool :=
  c = ' ' || c = '\t' || c = '\n' || c = '\r'

/-- Python's `str.strip()`: drop whitespace from both ends. -/
def stripStr (s : String) : String :=
  String.mk (((s.data.dropWhile isSpaceChar).reverse.dropWhile isSpaceChar).reverse)

/-- Shallow embedding of `BloodworkAnalysisService._extract_analysis_result`
(openai_service.py, lines 281-310): missing choices and empty (stripped)
content raise RuntimeErrors with distinct messages; otherwise the stripped
content is returned. -/
def BloodworkAnalysisService.extract_analysis_result (resp : ApiResponse) :
    Except String String :=
  match resp.choices with
  | [] => Except.error "No choices found in OpenAI response"
  | c :: _ =>
      let content := stripStr c.message.content
      if content = "" then Except.error "Empty content in OpenAI response"
      else Except.ok content

/-- Shallow embedding of `BloodworkAnalysisService.analyze_bloodwork_images`
(openai_service.py, lines 118-169).  The empty-list and missing-file
ValueErrors are raised before the `try` block and propagate unwrapped;
everything inside the `try` — image encoding, the HTTP request, result
extraction — is collapsed by the catch-all handler into the one
RuntimeError "Failed to analyze bloodwork images".  `imageExists` models
`image_path.exists()`, `encodeOk` models base64 encoding succeeding, and
`httpResult` models the remote endpoint. -/
def BloodworkAnalysisService.analyze_bloodwork_images
    (image_paths : List String) (imageExists encodeOk : String → Bool)
    (httpResult : HttpResult) : Except String String :=
  if image_paths = [] then
    Except.error "At least one image path must be provided"
  else
    match image_paths.find? (fun p => imageExists p = false) with
    | some p => Except.error ("Image file not found: " ++ p)
    | none =>
        let inner : Except String String :=
          match image_paths.find? (fun p => encodeOk p = false) with
          | some p => Except.error ("Failed to prepare image: " ++ p)
          | none =>
              match BloodworkAnalysisService.make_api_request httpResult with
              | .error e => Except.error e
              | .ok body => BloodworkAnalysisService.extract_analysis_result body
        match inner with
        | .ok r => Except.ok r
        | .error _ => Except.error "Failed to analyze bloodwork images"

/-- An uploaded file as `process_uploaded_pdf_in_background` sees it:
its declared content type, whether `await uploaded_file.read()` and the
temporary save succeed, and the PDF binary itself. -/
structure UploadFile where
  filename : String
  content_type : String
  readOk : Bool
  pdf : PdfDoc
deriving DecidableEq

/-- Contents of one per-upload analysis directory
`data/blood_work_pdfs/{uuid}` as far as the pipeline reads them:
no result yet, a written `model_output.json`, or a written `error.json`
(whose body carries the error message and the literal status "failed"). -/
inductive RecFiles where
  | noResult
  | outputFile (result : String)
  | errorFile (detail : String)
deriving DecidableEq

/-- Observable state shared by the pipeline: the `ai_diagnostics`
collection, the sequence counters, the per-uuid analysis directories, and
the background tasks scheduled via `background_tasks.add_task` but not
yet run (each holds the uuid and the already-rendered image paths). -/
structure SysState where
  ai_diagnostics : DiagStore
  counters : List (String × Nat)
  dirs : List (String × RecFiles)
  tasks : List (String × List String)
deriving DecidableEq

/-- The Italian response message returned by submit. -/
def analysisMessage : String :=
  "Analisi in corso. Torna più tardi per vedere i risultati."

/-- Directory creation with `mkdir(parents=True, exist_ok=True)`: a new
uuid gets an empty directory, an existing directory is untouched. -/
def mkDirFor (dirs : List (String × RecFiles)) (uuid : String) :
    List (String × RecFiles) :=
  if (dirs.lookup uuid).isSome then dirs else dirs ++ [(uuid, RecFiles.noResult)]

/-- Overwriting write of a result or error file into the uuid's
directory (open(..., "w") creates or replaces the file). -/
def setDir (dirs : List (String × RecFiles)) (uuid : String) (f : RecFiles) :
    List (String × RecFiles) :=
  if (dirs.lookup uuid).isSome then
    dirs.map (fun kv => if kv.1 = uuid then (kv.1, f) else kv)
  else dirs ++ [(uuid, f)]

/-- Shallow embedding of
`BloodworkPdfAnalysisService.process_uploaded_pdf_in_background`
(pdf_analysis_service.py, lines 60-138), the synchronous half of submit.
In source order: the content type is validated (HTTP 400 on mismatch), a
uuid4 is drawn (`uuid` parameter), the analysis directory is created, the
upload is saved to a temporary file, the PDF is converted to images
SYNCHRONOUSLY via `PdfImageConverter.convert_pdf_to_image_list`, and only
the AI analysis is scheduled as a background task; any exception after
validation becomes an HTTP 500.  The reply is the (pdf_uuid, message)
pair.  Nothing here touches `ai_diagnostics` or `counters`. -/
def BloodworkPdfAnalysisService.process_uploaded_pdf_in_background
    (file : UploadFile) (uuid : String) (s : SysState) :
    Except Nat (String × String) × SysState :=
  if file.content_type ≠ "application/pdf" then
    (Except.error 400, s)
  else
    let s1 := { s with dirs := mkDirFor s.dirs uuid }
    if file.readOk = false then
      (Except.error 500, s1)
    else
      match PdfImageConverter.convert_pdf_to_image_list file.pdf uuid with
      | .error _ => (Except.error 500, s1)
      | .ok image_paths =>
          (Except.ok (uuid, analysisMessage),
           { s1 with tasks := s1.tasks ++ [(uuid, image_paths)] })

/-- One run of the remote analysis as the background task observes it:
either `analyze_bloodwork_images` returned a string or it raised. -/
inductive VisionOutcome where
  | success (result : String)
  | failure
deriving DecidableEq

/-- The `error_msg` written into error.json by the background task. -/
def bgErrorDetail (uuid : String) : String :=
  "AI analysis failed for UUID: " ++ uuid

/-- Shallow embedding of
`BloodworkPdfAnalysisService._perform_ai_analysis_and_save_results`
(pdf_analysis_service.py, lines 238-285), the background task.  On
success the raw result is written to `model_output.json` (`saveOk` models
that write); on any exception — from the analysis or from the save — the
catch-all handler writes `error.json` with the message
"AI analysis failed for UUID: {uuid}" (`errWriteOk` models that write,
whose own failure is only logged).  The function never raises. -/
def BloodworkPdfAnalysisService.perform_ai_analysis_and_save_results
    (uuid : String) (outcome : VisionOutcome) (saveOk errWriteOk : Bool)
    (s : SysState) : SysState :=
  match outcome with
  | .success r =>
      if saveOk then { s with dirs := setDir s.dirs uuid (RecFiles.outputFile r) }
      else if errWriteOk then
        { s with dirs := setDir s.dirs uuid (RecFiles.errorFile (bgErrorDetail uuid)) }
      else s
  | .failure =>
      if errWriteOk then
        { s with dirs := setDir s.dirs uuid (RecFiles.errorFile (bgErrorDetail uuid)) }
      else s

/-- The status of a diagnostic record as a caller observes it through
`get_analysis_result` and the stored files: no directory means no record;
an empty directory is the queued ("not ready") state; `model_output.json`
is the completed state; `error.json` is the failed state.  No code path
produces an intermediate processing state. -/
inductive DiagStatus where
  | absent
  | queued
  | processing
  | completed
  | failed
deriving DecidableEq

def DiagStatus.isTerminal : DiagStatus → Bool
  | .completed => true
  | .failed => true
  | _ => false

def statusOf (s : SysState) (uuid : String) : DiagStatus :=
  match s.dirs.lookup uuid with
  | none => DiagStatus.absent
  | some RecFiles.noResult => DiagStatus.queued
  | some (RecFiles.outputFile _) => DiagStatus.completed
  | some (RecFiles.errorFile _) => DiagStatus.failed

/-- Operations of the subsystem as a transition relation.  `submit` runs
the synchronous half with a fresh uuid (uuid4 collision-freedom);
`run` executes one pending background task (FastAPI runs each scheduled
task exactly once, at any later time, with any outcome); `update_info`
and `create_diag` are the record-store mutations available to
collaborators. -/
inductive Step : SysState → SysState → Prop where
  | submit (file : UploadFile) (uuid : String) (s : SysState)
      (hfresh : s.dirs.lookup uuid = none) :
      Step s (BloodworkPdfAnalysisService.process_uploaded_pdf_in_background file uuid s).2
  | run (uuid : String) (paths : List String) (outcome : VisionOutcome)
      (saveOk errWriteOk : Bool) (s : SysState)
      (hmem : (uuid, paths) ∈ s.tasks) :
      Step s { BloodworkPdfAnalysisService.perform_ai_analysis_and_save_results
                 uuid outcome saveOk errWriteOk s with
               tasks := s.tasks.erase (uuid, paths) }
  | update_info (diagnostic_id : String) (info : List (String × String)) (s : SysState) :
      Step s { s with ai_diagnostics :=
        (AiDiagnosticRepository.update_processing_info diagnostic_id info s.ai_diagnostics).2 }
  | create_diag (d : AiDiagnostic) (cst : StoreResult (List (String × Nat)))
      (timestamp now : Nat) (s : SysState) :
      Step s { s with ai_diagnostics :=
        (AiDiagnosticRepository.create d cst timestamp now s.ai_diagnostics).2 }

/-- The empty deployment. -/
def initState : SysState := ⟨[], [], [], []⟩

/-- States reachable from the empty deployment. -/
inductive Reach : SysState → Prop where
  | init : Reach initState
  | step {s s2 : SysState} : Reach s → Step s s2 → Reach s2

/-- Zero or more operations. -/
inductive Steps : SysState → SysState → Prop where
  | refl (s : SysState) : Steps s s
  | tail {s s2 s3 : SysState} : Steps s s2 → Step s2 s3 → Steps s s3

section AssocLemmas

variable {β : Type}

theorem lookup_cons_self (a : String) (b : β) (es : List (String × β)) :
    List.lookup a ((a, b) :: es) = some b := by
  simp [List.lookup]

theorem lookup_cons_ne (a k : String) (b : β) (es : List (String × β)) (h : a ≠ k) :
    List.lookup a ((k, b) :: es) = List.lookup a es := by
  have hb : (a == k) = false := beq_eq_false_iff_ne.mpr h
  simp [List.lookup, hb]

theorem lookup_append_none (l1 l2 : List (String × β)) (a : String)
    (h : List.lookup a l1 = none) :
    List.lookup a (l1 ++ l2) = List.lookup a l2 := by
  induction l1 with
  | nil => rfl
  | cons kv rest ih =>
      cases kv with
      | mk k v =>
          by_cases hk : a = k
          · subst hk
            rw [lookup_cons_self] at h
            exact absurd h (by simp)
          · rw [List.cons_append, lookup_cons_ne a k v _ hk]
            rw [lookup_cons_ne a k v rest hk] at h
            exact ih h

theorem lookup_append_single_ne (l : List (String × β)) (a u : String) (b : β)
    (h : a ≠ u) :
    List.lookup a (l ++ [(u, b)]) = List.lookup a l := by
  induction l with
  | nil => exact lookup_cons_ne a u b [] h
  | cons kv rest ih =>
      cases kv with
      | mk k v =>
          by_cases hk : a = k
          · subst hk
            rw [List.cons_append, lookup_cons_self, lookup_cons_self]
          · rw [List.cons_append, lookup_cons_ne a k v _ hk, lookup_cons_ne a k v rest hk]
            exact ih

theorem lookup_setmap_self (l : List (String × β)) (u : String) (b : β)
    (h : (List.lookup u l).isSome) :
    List.lookup u (l.map (fun kv => if kv.1 = u then (kv.1, b) else kv)) = some b := by
  induction l with
  | nil => simp [List.lookup] at h
  | cons kv rest ih =>
      cases kv with
      | mk k v =>
          by_cases hk : u = k
          · subst hk
            simp only [List.map_cons, if_true]
            exact lookup_cons_self u b _
          · have hk2 : ¬ (k = u) := fun he => hk he.symm
            simp only [List.map_cons, if_neg hk2]
            rw [lookup_cons_ne u k v _ hk]
            rw [lookup_cons_ne u k v rest hk] at h
            exact ih h

theorem lookup_setmap_ne (l : List (String × β)) (u u2 : String) (b : β)
    (h : u2 ≠ u) :
    List.lookup u2 (l.map (fun kv => if kv.1 = u then (kv.1, b) else kv)) =
      List.lookup u2 l := by
  induction l with
  | nil => rfl
  | cons kv rest ih =>
      cases kv with
      | mk k v =>
          by_cases hk : k = u
          · subst hk
            simp only [List.map_cons, if_true]
            rw [lookup_cons_ne u2 k b _ h, lookup_cons_ne u2 k v rest h]
            exact ih
          · simp only [List.map_cons, if_neg hk]
            by_cases hu : u2 = k
            · subst hu
              rw [lookup_cons_self, lookup_cons_self]
            · rw [lookup_cons_ne u2 k v _ hu, lookup_cons_ne u2 k v rest hu]
              exact ih

theorem lookup_none_of_not_isSome (l : List (String × β)) (a : String)
    (h : ¬ (List.lookup a l).isSome = true) : List.lookup a l = none := by
  cases hh : List.lookup a l with
  | none => rfl
  | some v => rw [hh] at h; simp at h

end AssocLemmas

theorem lookup_setDir_self (dirs : List (String × RecFiles)) (u : String) (f : RecFiles) :
    List.lookup u (setDir dirs u f) = some f := by
  unfold setDir
  by_cases h : (List.lookup u dirs).isSome
  · rw [if_pos h]
    exact lookup_setmap_self dirs u f h
  · rw [if_neg h]
    rw [lookup_append_none dirs _ u (lookup_none_of_not_isSome dirs u h)]
    exact lookup_cons_self u f []

theorem lookup_setDir_ne (dirs : List (String × RecFiles)) (u u2 : String) (f : RecFiles)
    (h : u2 ≠ u) :
    List.lookup u2 (setDir dirs u f) = List.lookup u2 dirs := by
  unfold setDir
  by_cases hs : (List.lookup u dirs).isSome
  · rw [if_pos hs]
    exact lookup_setmap_ne dirs u u2 f h
  · rw [if_neg hs]
    exact lookup_append_single_ne dirs u2 u f h

theorem lookup_mkDirFor_fresh (dirs : List (String × RecFiles)) (u : String)
    (h : List.lookup u dirs = none) :
    List.lookup u (mkDirFor dirs u) = some RecFiles.noResult := by
  unfold mkDirFor
  rw [h]
  simp only [Option.isSome_none, Bool.false_eq_true, if_false]
  rw [lookup_append_none dirs _ u h]
  exact lookup_cons_self u RecFiles.noResult []

theorem lookup_mkDirFor_ne (dirs : List (String × RecFiles)) (u u2 : String)
    (h : u2 ≠ u) :
    List.lookup u2 (mkDirFor dirs u) = List.lookup u2 dirs := by
  unfold mkDirFor
  by_cases hs : (List.lookup u dirs).isSome
  · rw [if_pos hs]
  · rw [if_neg hs]
    exact lookup_append_single_ne dirs u2 u RecFiles.noResult h

theorem decDigitsRev_len_pos (fuel v : Nat) :
    1 ≤ (decDigitsRev (fuel + 1) v).length := by
  unfold decDigitsRev
  split
  · simp
  · simp

theorem decDigitsRev_len_two (fuel v : Nat) (hv : 10 ≤ v) (hfuel : v ≤ fuel + 1) :
    2 ≤ (decDigitsRev (fuel + 1) v).length := by
  have hnlt : ¬ v < 10 := by omega
  obtain ⟨f, rfl⟩ : ∃ f, fuel = f + 1 := ⟨fuel - 1, by omega⟩
  unfold decDigitsRev
  rw [if_neg hnlt]
  have := decDigitsRev_len_pos f (v / 10)
  simp only [List.length_cons]
  omega

theorem decDigitsRev_len_three (fuel v : Nat) (hv : 100 ≤ v) (hfuel : v ≤ fuel + 1) :
    3 ≤ (decDigitsRev (fuel + 1) v).length := by
  have hnlt : ¬ v < 10 := by omega
  obtain ⟨f, rfl⟩ : ∃ f, fuel = f + 1 := ⟨fuel - 1, by omega⟩
  unfold decDigitsRev
  rw [if_neg hnlt]
  have hdiv : 10 ≤ v / 10 := by omega
  have hdivle : v / 10 ≤ f + 1 := by
    have : v / 10 < v := Nat.div_lt_self (by omega) (by omega)
    omega
  have := decDigitsRev_len_two f (v / 10) hdiv hdivle
  simp only [List.length_cons]
  omega

theorem decRepr_length (v : Nat) :
    (decRepr v).length = (decDigitsRev (v + 1) v).length := by
  unfold decRepr
  show (((decDigitsRev (v + 1) v).reverse).map Nat.digitChar).length = _
  rw [List.length_map, List.length_reverse]

theorem decRepr_length_three (v : Nat) (hv : 100 ≤ v) : 3 ≤ (decRepr v).length := by
  rw [decRepr_length]
  exact decDigitsRev_len_three v v hv (by omega)

theorem pad3_length (s : String) : (pad3 s).length = max 3 s.length := by
  unfold pad3
  by_cases h : s.length < 3
  · rw [if_pos h, String.length_append]
    show (List.replicate (3 - s.length) '0').length + s.length = _
    rw [List.length_replicate]
    omega
  · rw [if_neg h]
    omega

theorem pad3_zeros (s : String) :
    ∃ k, pad3 s = String.mk (List.replicate k '0') ++ s := by
  unfold pad3
  by_cases h : s.length < 3
  · exact ⟨3 - s.length, by rw [if_pos h]⟩
  · refine ⟨0, ?_⟩
    rw [if_neg h]
    show s = String.mk [] ++ s
    cases s with
    | mk data => show String.mk data = String.mk ([] ++ data); rfl

theorem pad3_of_long (s : String) (h : 3 ≤ s.length) : pad3 s = s := by
  unfold pad3
  rw [if_neg (by omega)]

theorem fmt03_min_length (v : Nat) : 3 ≤ (fmt03 v).length := by
  unfold fmt03
  rw [pad3_length]
  omega

theorem fmt03_no_truncation (v : Nat) (hv : 1000 ≤ v) : fmt03 v = decRepr v := by
  unfold fmt03
  exact pad3_of_long _ (decRepr_length_three v (by omega))

/-- C7: for every entity_type string (known or unknown), the Sequence
Allocator returns an identifier of the form prefix-dash-value with the
value zero-padded to at least 3 digits (padding only ever prepends zeros,
so no digits are truncated and the width simply grows for values whose
decimal form is at least 3 digits, in particular for values >= 1000), and
an unknown entity_type resolves to the fallback prefix "UNK" instead of
failing. -/
theorem C7_get_next_id_format (counter_type : String)
    (counters : List (String × Nat)) (timestamp : Nat) :
    (SequenceCounterRepository.get_next_id counter_type (.ok counters) timestamp).1
      = prefFor counter_type ++ "-"
          ++ fmt03 (((counters.lookup (counter_type ++ "_seq")).getD 0) + 1)
    ∧ (∀ v : Nat, 3 ≤ (fmt03 v).length)
    ∧ (∀ v : Nat, ∃ k, fmt03 v = String.mk (List.replicate k '0') ++ decRepr v)
    ∧ (∀ v : Nat, 1000 ≤ v → fmt03 v = decRepr v)
    ∧ (prefMap.lookup counter_type = none → prefFor counter_type = "UNK") := by
  refine ⟨rfl, fmt03_min_length, fun v => pad3_zeros (decRepr v), fmt03_no_truncation, ?_⟩
  intro h
  unfold prefFor
  rw [h]
  rfl

/-- Witness for C7 at concrete inputs: the unknown entity type "widget"
with stored counter 13 yields "UNK-014", and 2026 is rendered without
truncation. -/
theorem C7_witness :
    (SequenceCounterRepository.get_next_id "widget" (.ok [("widget_seq", 13)]) 0).1 = "UNK-014"
    ∧ 3 ≤ (fmt03 14).length
    ∧ fmt03 2026 = decRepr 2026 := by
  refine ⟨?_, ?_, ?_⟩
  · rw [(C7_get_next_id_format "widget" [("widget_seq", 13)] 0).1]
    rfl
  · exact (C7_get_next_id_format "widget" [] 0).2.1 14
  · exact (C7_get_next_id_format "widget" [] 0).2.2.2.1 2026 (by omega)

/-- C8: when the atomic increment against the backing store fails, the
allocator does not raise: it returns the timestamp-derived identifier
prefix-dash-timestamp (and that identifier is a non-empty string, so
submission can proceed). -/
theorem C8_get_next_id_fallback (counter_type : String) (timestamp : Nat) :
    (SequenceCounterRepository.get_next_id counter_type .unavailable timestamp).1
      = prefFor counter_type ++ "-" ++ decRepr timestamp
    ∧ (SequenceCounterRepository.get_next_id counter_type .unavailable timestamp).1 ≠ "" := by
  refine ⟨rfl, ?_⟩
  intro h
  have hlen : (prefFor counter_type ++ "-" ++ decRepr timestamp).length = 0 := by
    rw [show (SequenceCounterRepository.get_next_id counter_type .unavailable timestamp).1
          = prefFor counter_type ++ "-" ++ decRepr timestamp from rfl] at h
    rw [h]
    rfl
  rw [String.length_append, String.length_append] at hlen
  have : ("-" : String).length = 1 := rfl
  omega

/-- C10: get_next_sequence_number never raises; a store failure returns 1,
exactly the value returned for a patient with no prior diagnostics, so the
caller cannot distinguish the two, and when the patient already has a
diagnostic with sequence_number 1 the failure path hands out that same
number again. -/
theorem C10_seq_number_failure_indistinguishable (patient_id : String) :
    AiDiagnosticRepository.get_next_sequence_number patient_id .unavailable = 1
    ∧ AiDiagnosticRepository.get_next_sequence_number patient_id (.ok []) = 1
    ∧ (∀ (store : DiagStore) (d : AiDiagnostic),
        d ∈ store.map Prod.snd → d.patient_id = patient_id → d.sequence_number = 1 →
        AiDiagnosticRepository.get_next_sequence_number patient_id .unavailable
          = d.sequence_number) := by
  refine ⟨rfl, rfl, ?_⟩
  intro store d _ _ hseq
  rw [hseq]
  rfl

/-- Witness for C10: a patient with one stored diagnostic whose
sequence_number is 1 receives 1 again on the failure path. -/
theorem C10_witness :
    AiDiagnosticRepository.get_next_sequence_number "PAT-001" .unavailable
      = (⟨"DGN-001", "PAT-001", 1, 0, [], "VET-001", 0⟩ : AiDiagnostic).sequence_number := by
  exact (C10_seq_number_failure_indistinguishable "PAT-001").2.2
    [("DGN-001", ⟨"DGN-001", "PAT-001", 1, 0, [], "VET-001", 0⟩)]
    ⟨"DGN-001", "PAT-001", 1, 0, [], "VET-001", 0⟩
    (by simp) rfl rfl

/-- A diagnostic record used by several concrete scenarios below. -/
def dupDiag : AiDiagnostic :=
  ⟨"DGN-001", "PAT-001", 1, 0, [], "VET-001", 0⟩

/-- C5 counterexample: with "DGN-001" already present, the store-level
insert does raise a duplicate-key error, but create catches it and
reports the ordinary non-result none with the store unchanged — the very
outcome the claim says must not happen. -/
theorem C5_counterexample :
    insert_one [("DGN-001", dupDiag)] { dupDiag with created_at := 7 }
      = Except.error "E11000 duplicate key error"
    ∧ (AiDiagnosticRepository.create dupDiag (.ok []) 0 7 [("DGN-001", dupDiag)]).1 = none
    ∧ (AiDiagnosticRepository.create dupDiag (.ok []) 0 7 [("DGN-001", dupDiag)]).2
        = [("DGN-001", dupDiag)] :=
  ⟨rfl, rfl, rfl⟩

/-- C5 amended: when the record's id is already present, the underlying
insert raises a duplicate-key error, which create's catch-all handler
swallows: create returns the ordinary non-result none and leaves the
store unchanged, indistinguishable from any other failure. -/
theorem C5_create_swallows_duplicate (d : AiDiagnostic)
    (cst : StoreResult (List (String × Nat))) (timestamp now : Nat) (store : DiagStore)
    (hid : d.diagnostic_id ≠ "") (hph : d.diagnostic_id ≠ "placeholder")
    (hdup : (List.lookup d.diagnostic_id store).isSome) :
    (AiDiagnosticRepository.create d cst timestamp now store).1 = none
    ∧ (AiDiagnosticRepository.create d cst timestamp now store).2 = store := by
  unfold AiDiagnosticRepository.create
  have hcond : ¬ (d.diagnostic_id = "" ∨ d.diagnostic_id = "placeholder") := by
    intro h
    cases h with
    | inl h => exact hid h
    | inr h => exact hph h
  rw [if_neg hcond]
  unfold insert_one
  dsimp only
  rw [if_pos hdup]
  exact ⟨rfl, rfl⟩

/-- Witness for C5 amended at the concrete duplicate scenario. -/
theorem C5_witness :
    (AiDiagnosticRepository.create dupDiag .unavailable 3 9 [("DGN-001", dupDiag)]).1 = none := by
  exact (C5_create_swallows_duplicate dupDiag .unavailable 3 9 [("DGN-001", dupDiag)]
    (by decide) (by decide) (by decide)).1

/-- C4 counterexample: a two-page document whose second page fails does
not yield the partial list of already-rendered pages — the whole
conversion fails with the page-naming error, and no list at all reaches
the caller. -/
theorem C4_counterexample :
    PdfImageConverter.convert_pdf_to_image_list (PdfDoc.pages [true, false]) "doc"
      = Except.error (ConvErr.pageFailed 2)
    ∧ (∀ paths : List String,
        PdfImageConverter.convert_pdf_to_image_list (PdfDoc.pages [true, false]) "doc"
          ≠ Except.ok paths) := by
  refine ⟨rfl, ?_⟩
  intro paths h
  rw [show PdfImageConverter.convert_pdf_to_image_list (PdfDoc.pages [true, false]) "doc"
        = Except.error (ConvErr.pageFailed 2) from rfl] at h
  exact absurd h (by simp)

theorem convertLoop_abort (filename_pre : String) (i idx : Nat) (rest : List Bool) :
    convertLoop filename_pre (List.replicate i true ++ false :: rest) idx
      = Except.error (ConvErr.pageFailed (idx + i + 1)) := by
  induction i generalizing idx with
  | zero =>
      simp only [List.replicate, List.nil_append]
      unfold convertLoop PdfImageConverter.convert_single_page
      simp
  | succ n ih =>
      rw [List.replicate_succ, List.cons_append]
      unfold convertLoop PdfImageConverter.convert_single_page
      rw [if_pos rfl]
      rw [ih (idx + 1)]
      have : idx + 1 + n + 1 = idx + (n + 1) + 1 := by omega
      rw [this]

/-- C4 amended: when the first failing page is page i (0-based, after i
successfully rendered pages), the renderer raises the error naming page
i+1 and aborts the whole conversion; the already-rendered page paths are
discarded and no (partial) list is returned to the caller. -/
theorem C4_render_aborts_on_page_failure (filename_pre : String) (i : Nat)
    (rest : List Bool) :
    PdfImageConverter.convert_pdf_to_image_list
        (PdfDoc.pages (List.replicate i true ++ false :: rest)) filename_pre
      = Except.error (ConvErr.pageFailed (i + 1)) := by
  show convertLoop filename_pre (List.replicate i true ++ false :: rest) 0
         = Except.error (ConvErr.pageFailed (i + 1))
  rw [convertLoop_abort filename_pre i 0 rest]
  have : 0 + i + 1 = i + 1 := by omega
  rw [this]

theorem extract_ok_nonempty (resp : ApiResponse) (res : String)
    (h : BloodworkAnalysisService.extract_analysis_result resp = Except.ok res) :
    res ≠ "" := by
  unfold BloodworkAnalysisService.extract_analysis_result at h
  cases hc : resp.choices with
  | nil =>
      rw [hc] at h
      exact absurd h (by simp)
  | cons c rest =>
      rw [hc] at h
      dsimp only at h
      by_cases he : stripStr c.message.content = ""
      · rw [if_pos he] at h
        exact absurd h (by simp)
      · rw [if_neg he] at h
        have : stripStr c.message.content = res := by
          have := h
          injection this
        rw [← this]
        exact he

/-- C9 counterexample: with one existing, encodable image, a transport
failure, a non-2xx status from the endpoint, and a malformed reply
(no choices) all surface to the caller of analyze_bloodwork_images as the
same generic error, so the three failure kinds are not distinguishable. -/
theorem C9_counterexample :
    BloodworkAnalysisService.analyze_bloodwork_images ["page1.png"]
        (fun _ => true) (fun _ => true) (HttpResult.transportFailure "connection reset")
      = Except.error "Failed to analyze bloodwork images"
    ∧ BloodworkAnalysisService.analyze_bloodwork_images ["page1.png"]
        (fun _ => true) (fun _ => true) (HttpResult.statusFailure 500 "500 Server Error")
      = Except.error "Failed to analyze bloodwork images"
    ∧ BloodworkAnalysisService.analyze_bloodwork_images ["page1.png"]
        (fun _ => true) (fun _ => true) (HttpResult.ok ⟨[]⟩)
      = Except.error "Failed to analyze bloodwork images" :=
  ⟨rfl, rfl, rfl⟩

/-- C9 amended: the client does fail on each of the three failure kinds
and a success yields a non-empty string, but the failure kinds are not
surfaced distinctly: analyze_bloodwork_images collapses every failure
inside its try block into the single RuntimeError
"Failed to analyze bloodwork images" (the transport failure and the
non-2xx status already share one handler and one message template inside
the request helper). -/
theorem C9_failures_collapsed (image_paths : List String)
    (imageExists encodeOk : String → Bool) (r : HttpResult) :
    (∀ res, BloodworkAnalysisService.analyze_bloodwork_images image_paths
        imageExists encodeOk r = Except.ok res → res ≠ "")
    ∧ (image_paths ≠ [] →
       image_paths.find? (fun p => imageExists p = false) = none →
       (∀ d : String, r = HttpResult.transportFailure d
          ∨ (∃ c, r = HttpResult.statusFailure c d)
          ∨ r = HttpResult.parseFailure d
          ∨ r = HttpResult.ok ⟨[]⟩ →
        BloodworkAnalysisService.analyze_bloodwork_images image_paths
            imageExists encodeOk r
          = Except.error "Failed to analyze bloodwork images")) := by
  constructor
  · intro res h
    unfold BloodworkAnalysisService.analyze_bloodwork_images at h
    by_cases h0 : image_paths = []
    · rw [if_pos h0] at h
      exact absurd h (by simp)
    · rw [if_neg h0] at h
      cases hfind : image_paths.find? (fun p => imageExists p = false) with
      | some p =>
          rw [hfind] at h
          exact absurd h (by simp)
      | none =>
          rw [hfind] at h
          dsimp only at h
          cases henc : image_paths.find? (fun p => encodeOk p = false) with
          | some p =>
              rw [henc] at h
              exact absurd h (by simp)
          | none =>
              rw [henc] at h
              dsimp only at h
              cases hreq : BloodworkAnalysisService.make_api_request r with
              | error e =>
                  rw [hreq] at h
                  exact absurd h (by simp)
              | ok body =>
                  rw [hreq] at h
                  dsimp only at h
                  cases hext : BloodworkAnalysisService.extract_analysis_result body with
                  | error e =>
                      rw [hext] at h
                      exact absurd h (by simp)
                  | ok res2 =>
                      rw [hext] at h
                      have hres : res2 = res := by injection h
                      rw [← hres]
                      exact extract_ok_nonempty body res2 hext
  · intro h0 hfind d hr
    unfold BloodworkAnalysisService.analyze_bloodwork_images
    rw [if_neg h0, hfind]
    dsimp only
    cases henc : image_paths.find? (fun p => encodeOk p = false) with
    | some p => rfl
    | none =>
        have hreqerr : (∃ e, BloodworkAnalysisService.make_api_request r = Except.error e)
            ∨ r = HttpResult.ok ⟨[]⟩ := by
          rcases hr with h1 | ⟨c, h2⟩ | h3 | h4
          · exact Or.inl ⟨_, by rw [h1]; rfl⟩
          · exact Or.inl ⟨_, by rw [h2]; rfl⟩
          · exact Or.inl ⟨_, by rw [h3]; rfl⟩
          · exact Or.inr h4
        rcases hreqerr with ⟨e, he⟩ | hok
        · rw [he]
        · rw [hok]
          rfl

/-- Witness for C9 amended at concrete inputs: a successful reply yields
the non-empty stripped content, and a transport failure yields the
generic collapsed error. -/
theorem C9_witness :
    ("res" : String) ≠ ""
    ∧ BloodworkAnalysisService.analyze_bloodwork_images ["page1.png"]
        (fun _ => true) (fun _ => true) (HttpResult.transportFailure "timeout")
      = Except.error "Failed to analyze bloodwork images" := by
  constructor
  · exact (C9_failures_collapsed ["page1.png"] (fun _ => true) (fun _ => true)
      (HttpResult.ok ⟨[⟨⟨"  res  "⟩⟩]⟩)).1 "res" rfl
  · exact (C9_failures_collapsed ["page1.png"] (fun _ => true) (fun _ => true)
      (HttpResult.transportFailure "timeout")).2 (by simp) rfl "timeout" (Or.inl rfl)

/-- A well-formed one-page upload accepted by submit. -/
def goodUpload : UploadFile :=
  ⟨"blood_report.pdf", "application/pdf", true, PdfDoc.pages [true]⟩

/-- The same upload except that the binary cannot be opened. -/
def corruptUpload : UploadFile :=
  ⟨"blood_report.pdf", "application/pdf", true, PdfDoc.unopenable⟩

/-- A fixed uuid4 value for the concrete scenarios. -/
def sampleUuid : String := "11111111-2222-3333-4444-555555555555"

/-- C1 counterexample: an accepted, renderable upload is processed
successfully and submit returns the uuid4 string — yet the diagnostic
store still holds no record at all (so no QUEUED record was inserted) and
the sequence counters are untouched (so no Sequence Allocator identifier
was allocated); the returned identifier is the raw uuid, not a
PREFIX-dash-number. -/
theorem C1_counterexample :
    (BloodworkPdfAnalysisService.process_uploaded_pdf_in_background
        goodUpload sampleUuid initState).1 = Except.ok (sampleUuid, analysisMessage)
    ∧ (BloodworkPdfAnalysisService.process_uploaded_pdf_in_background
        goodUpload sampleUuid initState).2.ai_diagnostics = []
    ∧ (BloodworkPdfAnalysisService.process_uploaded_pdf_in_background
        goodUpload sampleUuid initState).2.counters = [] :=
  ⟨rfl, rfl, rfl⟩

theorem process_ok_eq (file : UploadFile) (uuid : String) (s : SysState)
    (hct : file.content_type = "application/pdf") (hread : file.readOk = true)
    (paths : List String)
    (hconv : PdfImageConverter.convert_pdf_to_image_list file.pdf uuid = Except.ok paths) :
    BloodworkPdfAnalysisService.process_uploaded_pdf_in_background file uuid s
      = (Except.ok (uuid, analysisMessage),
         { s with dirs := mkDirFor s.dirs uuid, tasks := s.tasks ++ [(uuid, paths)] }) := by
  unfold BloodworkPdfAnalysisService.process_uploaded_pdf_in_background
  rw [hct]
  rw [if_neg (by simp)]
  dsimp only
  rw [hread]
  rw [if_neg (by simp)]
  rw [hconv]

/-- C1 amended: for every accepted upload (PDF content type, readable
binary, renderable pages) the synchronous half of submit creates the
uuid's analysis directory, schedules exactly one background task carrying
the rendered page paths, and returns the uuid4 identifier with the fixed
message; it inserts nothing into the diagnostic record store, consults no
sequence counter, and computes no per-owner sequence number. -/
theorem C1_submit_actual_behavior (file : UploadFile) (uuid : String) (s : SysState)
    (hct : file.content_type = "application/pdf") (hread : file.readOk = true)
    (paths : List String)
    (hconv : PdfImageConverter.convert_pdf_to_image_list file.pdf uuid = Except.ok paths) :
    BloodworkPdfAnalysisService.process_uploaded_pdf_in_background file uuid s
      = (Except.ok (uuid, analysisMessage),
         { s with dirs := mkDirFor s.dirs uuid, tasks := s.tasks ++ [(uuid, paths)] })
    ∧ (BloodworkPdfAnalysisService.process_uploaded_pdf_in_background
        file uuid s).2.ai_diagnostics = s.ai_diagnostics
    ∧ (BloodworkPdfAnalysisService.process_uploaded_pdf_in_background
        file uuid s).2.counters = s.counters := by
  have h := process_ok_eq file uuid s hct hread paths hconv
  refine ⟨h, ?_, ?_⟩ <;> rw [h]

/-- Witness for C1 amended at the concrete accepted upload. -/
theorem C1_witness :
    (BloodworkPdfAnalysisService.process_uploaded_pdf_in_background
        goodUpload sampleUuid initState).2.tasks
      = [(sampleUuid, [sampleUuid ++ "_page_1.png"])] := by
  rw [(C1_submit_actual_behavior goodUpload sampleUuid initState rfl rfl
    [sampleUuid ++ "_page_1.png"] rfl).1]
  rfl

/-- C2 counterexample: a corrupt binary does NOT end as a FAILED record —
rendering runs synchronously inside submit, so the uploader receives an
immediate HTTP 500, no background task is ever scheduled, the analysis
directory holds no error detail (status stays queued), and the diagnostic
store holds no record. -/
theorem C2_counterexample :
    (BloodworkPdfAnalysisService.process_uploaded_pdf_in_background
        corruptUpload sampleUuid initState).1 = Except.error 500
    ∧ (BloodworkPdfAnalysisService.process_uploaded_pdf_in_background
        corruptUpload sampleUuid initState).2.tasks = []
    ∧ (BloodworkPdfAnalysisService.process_uploaded_pdf_in_background
        corruptUpload sampleUuid initState).2.dirs = [(sampleUuid, RecFiles.noResult)]
    ∧ (BloodworkPdfAnalysisService.process_uploaded_pdf_in_background
        corruptUpload sampleUuid initState).2.ai_diagnostics = []
    ∧ statusOf (BloodworkPdfAnalysisService.process_uploaded_pdf_in_background
        corruptUpload sampleUuid initState).2 sampleUuid = DiagStatus.queued :=
  ⟨rfl, rfl, rfl, rfl, rfl⟩

/-- C2 amended: every failure inside the scheduled background execution —
the remote analysis raising, or the saving of its result failing after a
successful analysis — is caught (the task never raises) and, when the
error-file write succeeds, the failure detail is recorded in the uuid's
error.json, leaving the record observably FAILED; rendering failures, by
contrast, happen synchronously inside submit and surface to the uploader
as an immediate HTTP 500 with no FAILED record anywhere. -/
theorem C2_background_failure_recorded (uuid : String) (s : SysState)
    (outcome : VisionOutcome) (saveOk : Bool)
    (hfail : outcome = VisionOutcome.failure
      ∨ ∃ r, outcome = VisionOutcome.success r ∧ saveOk = false) :
    BloodworkPdfAnalysisService.perform_ai_analysis_and_save_results
        uuid outcome saveOk true s
      = { s with dirs := setDir s.dirs uuid (RecFiles.errorFile (bgErrorDetail uuid)) }
    ∧ statusOf (BloodworkPdfAnalysisService.perform_ai_analysis_and_save_results
        uuid outcome saveOk true s) uuid = DiagStatus.failed := by
  have heq : BloodworkPdfAnalysisService.perform_ai_analysis_and_save_results
      uuid outcome saveOk true s
      = { s with dirs := setDir s.dirs uuid (RecFiles.errorFile (bgErrorDetail uuid)) } := by
    rcases hfail with h | ⟨r, ho, hsv⟩
    · rw [h]
      rfl
    · rw [ho, hsv]
      rfl
  refine ⟨heq, ?_⟩
  rw [heq]
  show statusOf
      { s with dirs := setDir s.dirs uuid (RecFiles.errorFile (bgErrorDetail uuid)) } uuid = _
  unfold statusOf
  dsimp only
  rw [lookup_setDir_self]

/-- Witness for C2 amended at concrete inputs, one per named background
failure: the remote analysis raising, and the result save failing after a
successful analysis; both leave the concrete record FAILED. -/
theorem C2_witness :
    statusOf (BloodworkPdfAnalysisService.perform_ai_analysis_and_save_results
        sampleUuid VisionOutcome.failure true true initState) sampleUuid
      = DiagStatus.failed
    ∧ statusOf (BloodworkPdfAnalysisService.perform_ai_analysis_and_save_results
        sampleUuid (VisionOutcome.success "RESULT") false true initState) sampleUuid
      = DiagStatus.failed := by
  constructor
  · exact (C2_background_failure_recorded sampleUuid initState VisionOutcome.failure true
      (Or.inl rfl)).2
  · exact (C2_background_failure_recorded sampleUuid initState
      (VisionOutcome.success "RESULT") false (Or.inr ⟨"RESULT", rfl, rfl⟩)).2

/-- C3 counterexample: the response of submit depends on the outcome of
page rendering — the same upload with an unopenable binary yields an
immediate HTTP 500 while the renderable one yields the ok response, and
the scheduled background task already carries the rendered page paths —
so page rendering IS awaited before submit returns, contrary to the
claim that neither rendering nor remote analysis is. -/
theorem C3_counterexample :
    (BloodworkPdfAnalysisService.process_uploaded_pdf_in_background
        corruptUpload sampleUuid initState).1 = Except.error 500
    ∧ (BloodworkPdfAnalysisService.process_uploaded_pdf_in_background
        goodUpload sampleUuid initState).1 = Except.ok (sampleUuid, analysisMessage)
    ∧ (BloodworkPdfAnalysisService.process_uploaded_pdf_in_background
        goodUpload sampleUuid initState).2.tasks
        = [(sampleUuid, [sampleUuid ++ "_page_1.png"])] :=
  ⟨rfl, rfl, rfl⟩

/-- C3 amended: submit does not await the remote vision-analysis call —
its response is fixed before any vision outcome exists, the record is
still observably queued when submit returns, and the analysis is only a
pending background task — but page rendering is performed synchronously
inside submit (the scheduled task already carries the rendered paths, and
a rendering failure changes submit's own response). -/
theorem C3_submit_not_awaiting_vision (file : UploadFile) (uuid : String) (s : SysState)
    (hct : file.content_type = "application/pdf") (hread : file.readOk = true)
    (paths : List String)
    (hconv : PdfImageConverter.convert_pdf_to_image_list file.pdf uuid = Except.ok paths)
    (hfresh : s.dirs.lookup uuid = none) :
    (BloodworkPdfAnalysisService.process_uploaded_pdf_in_background file uuid s).1
      = Except.ok (uuid, analysisMessage)
    ∧ statusOf (BloodworkPdfAnalysisService.process_uploaded_pdf_in_background
        file uuid s).2 uuid = DiagStatus.queued
    ∧ (uuid, paths)
        ∈ (BloodworkPdfAnalysisService.process_uploaded_pdf_in_background file uuid s).2.tasks := by
  rw [process_ok_eq file uuid s hct hread paths hconv]
  refine ⟨rfl, ?_, ?_⟩
  · unfold statusOf
    dsimp only
    rw [lookup_mkDirFor_fresh s.dirs uuid hfresh]
  · dsimp only
    exact List.mem_append.mpr (Or.inr (List.mem_singleton.mpr rfl))

/-- Witness for C3 amended at the concrete accepted upload. -/
theorem C3_witness :
    statusOf (BloodworkPdfAnalysisService.process_uploaded_pdf_in_background
        goodUpload sampleUuid initState).2 sampleUuid = DiagStatus.queued := by
  exact (C3_submit_not_awaiting_vision goodUpload sampleUuid initState rfl rfl
    [sampleUuid ++ "_page_1.png"] rfl rfl).2.1

theorem process_cases (file : UploadFile) (uuid : String) (s : SysState) :
    (BloodworkPdfAnalysisService.process_uploaded_pdf_in_background file uuid s).2 = s
    ∨ (BloodworkPdfAnalysisService.process_uploaded_pdf_in_background file uuid s).2
        = { s with dirs := mkDirFor s.dirs uuid }
    ∨ (∃ paths, (BloodworkPdfAnalysisService.process_uploaded_pdf_in_background file uuid s).2
        = { s with dirs := mkDirFor s.dirs uuid, tasks := s.tasks ++ [(uuid, paths)] }) := by
  unfold BloodworkPdfAnalysisService.process_uploaded_pdf_in_background
  by_cases hct : file.content_type ≠ "application/pdf"
  · rw [if_pos hct]
    exact Or.inl rfl
  · rw [if_neg hct]
    dsimp only
    by_cases hr : file.readOk = false
    · rw [if_pos hr]
      exact Or.inr (Or.inl rfl)
    · rw [if_neg hr]
      cases hconv : PdfImageConverter.convert_pdf_to_image_list file.pdf uuid with
      | error e => exact Or.inr (Or.inl rfl)
      | ok paths => exact Or.inr (Or.inr ⟨paths, rfl⟩)

theorem perform_cases (uuid : String) (outcome : VisionOutcome) (saveOk errWriteOk : Bool)
    (s : SysState) :
    ((BloodworkPdfAnalysisService.perform_ai_analysis_and_save_results
        uuid outcome saveOk errWriteOk s).dirs = s.dirs
      ∨ ∃ f, (BloodworkPdfAnalysisService.perform_ai_analysis_and_save_results
          uuid outcome saveOk errWriteOk s).dirs = setDir s.dirs uuid f)
    ∧ (BloodworkPdfAnalysisService.perform_ai_analysis_and_save_results
        uuid outcome saveOk errWriteOk s).tasks = s.tasks
    ∧ (BloodworkPdfAnalysisService.perform_ai_analysis_and_save_results
        uuid outcome saveOk errWriteOk s).ai_diagnostics = s.ai_diagnostics := by
  unfold BloodworkPdfAnalysisService.perform_ai_analysis_and_save_results
  cases outcome with
  | success r =>
      dsimp only
      by_cases hs : saveOk = true
      · rw [if_pos hs]
        exact ⟨Or.inr ⟨RecFiles.outputFile r, rfl⟩, rfl, rfl⟩
      · rw [if_neg hs]
        by_cases he : errWriteOk = true
        · rw [if_pos he]
          exact ⟨Or.inr ⟨RecFiles.errorFile (bgErrorDetail uuid), rfl⟩, rfl, rfl⟩
        · rw [if_neg he]
          exact ⟨Or.inl rfl, rfl, rfl⟩
  | failure =>
      dsimp only
      by_cases he : errWriteOk = true
      · rw [if_pos he]
        exact ⟨Or.inr ⟨RecFiles.errorFile (bgErrorDetail uuid), rfl⟩, rfl, rfl⟩
      · rw [if_neg he]
        exact ⟨Or.inl rfl, rfl, rfl⟩

theorem statusOf_congr (s s2 : SysState) (u : String)
    (h : List.lookup u s2.dirs = List.lookup u s.dirs) :
    statusOf s2 u = statusOf s u := by
  unfold statusOf
  rw [h]

theorem statusOf_queued_iff (s : SysState) (u : String) :
    statusOf s u = DiagStatus.queued ↔ List.lookup u s.dirs = some RecFiles.noResult := by
  unfold statusOf
  cases h : List.lookup u s.dirs with
  | none => simp
  | some f => cases f <;> simp

theorem statusOf_ne_processing (s : SysState) (u : String) :
    statusOf s u ≠ DiagStatus.processing := by
  unfold statusOf
  cases h : List.lookup u s.dirs with
  | none => simp
  | some f => cases f <;> simp

theorem terminal_lookup (s : SysState) (u : String)
    (ht : (statusOf s u).isTerminal = true) :
    ∃ f, List.lookup u s.dirs = some f ∧ f ≠ RecFiles.noResult := by
  unfold statusOf at ht
  cases h : List.lookup u s.dirs with
  | none => rw [h] at ht; exact absurd ht (by simp [DiagStatus.isTerminal])
  | some f =>
      rw [h] at ht
      cases f with
      | noResult => exact absurd ht (by simp [DiagStatus.isTerminal])
      | outputFile r => exact ⟨_, rfl, by simp⟩
      | errorFile e => exact ⟨_, rfl, by simp⟩

/-- The key invariant of reachable states: every pending background task
belongs to a record that is still observably queued, and no two pending
tasks share a uuid. -/
def TasksInv (s : SysState) : Prop :=
  (∀ u ps, (u, ps) ∈ s.tasks → statusOf s u = DiagStatus.queued)
  ∧ (s.tasks.map Prod.fst).Nodup

theorem step_inv {s s2 : SysState} (hinv : TasksInv s) (hstep : Step s s2) :
    TasksInv s2 := by
  cases hstep with
  | submit file uuid sX hfresh =>
      rcases process_cases file uuid s with hcase | hcase | ⟨paths, hcase⟩
      · rw [hcase]; exact hinv
      · rw [hcase]
        constructor
        · intro u ps hmem
          have hq := hinv.1 u ps hmem
          rw [statusOf_queued_iff] at hq
          have hne : u ≠ uuid := by
            intro he; rw [he, hfresh] at hq; exact absurd hq (by simp)
          rw [statusOf_queued_iff]
          show List.lookup u (mkDirFor s.dirs uuid) = some RecFiles.noResult
          rw [lookup_mkDirFor_ne s.dirs uuid u hne]
          exact hq
        · exact hinv.2
      · rw [hcase]
        constructor
        · intro u ps hmem
          rw [statusOf_queued_iff]
          show List.lookup u (mkDirFor s.dirs uuid) = some RecFiles.noResult
          rcases List.mem_append.mp hmem with hold | hnew
          · have hq := hinv.1 u ps hold
            rw [statusOf_queued_iff] at hq
            have hne : u ≠ uuid := by
              intro he; rw [he, hfresh] at hq; exact absurd hq (by simp)
            rw [lookup_mkDirFor_ne s.dirs uuid u hne]
            exact hq
          · have : (u, ps) = (uuid, paths) := List.mem_singleton.mp hnew
            have hu : u = uuid := by injection this with h1 h2
            rw [hu]
            exact lookup_mkDirFor_fresh s.dirs uuid hfresh
        · show ((s.tasks ++ [(uuid, paths)]).map Prod.fst).Nodup
          rw [List.map_append]
          rw [List.nodup_append]
          refine ⟨hinv.2, List.nodup_singleton uuid, ?_⟩
          intro x hx hxs
          have hxu : x = uuid := List.mem_singleton.mp hxs
          rcases List.mem_map.mp hx with ⟨pair, hpair, hfst⟩
          have hq := hinv.1 pair.1 pair.2 (by rw [show (pair.1, pair.2) = pair from rfl]; exact hpair)
          rw [statusOf_queued_iff] at hq
          rw [hfst, hxu] at hq
          rw [hfresh] at hq
          exact absurd hq (by simp)
  | run uuid paths outcome saveOk errWriteOk sY hmem =>
      have hpc := perform_cases uuid outcome saveOk errWriteOk s
      have hpairsnodup : s.tasks.Nodup := List.Nodup.of_map Prod.fst hinv.2
      constructor
      · intro u ps hmem2
        have hmem2s : (u, ps) ∈ s.tasks := List.mem_of_mem_erase hmem2
        have hq := hinv.1 u ps hmem2s
        have hne : u ≠ uuid := by
          intro he
          subst he
          have : (u, ps) = (u, paths) := by
            have := List.inj_on_of_nodup_map hinv.2 hmem2s hmem (by rfl)
            exact this
          rw [this] at hmem2
          exact List.Nodup.not_mem_erase hpairsnodup hmem2
        rw [statusOf_queued_iff] at hq
        rw [statusOf_queued_iff]
        show List.lookup u (BloodworkPdfAnalysisService.perform_ai_analysis_and_save_results
            uuid outcome saveOk errWriteOk s).dirs = some RecFiles.noResult
        rcases hpc.1 with hd | ⟨f, hd⟩
        · rw [hd]; exact hq
        · rw [hd, lookup_setDir_ne s.dirs uuid u f hne]; exact hq
      · show (((s.tasks.erase (uuid, paths)).map Prod.fst)).Nodup
        exact hinv.2.sublist ((List.erase_sublist _ _).map Prod.fst)
  | update_info diagnostic_id info sZ => exact hinv
  | create_diag d cst timestamp now sW => exact hinv

theorem step_terminal_eq {s s2 : SysState} (hinv : TasksInv s) (hstep : Step s s2)
    (u : String) (ht : (statusOf s u).isTerminal = true) :
    statusOf s2 u = statusOf s u := by
  cases hstep with
  | submit file uuid sX hfresh =>
      obtain ⟨f, hlk, _⟩ := terminal_lookup s u ht
      have hne : u ≠ uuid := by
        intro he; rw [he, hfresh] at hlk; exact absurd hlk (by simp)
      rcases process_cases file uuid s with hcase | hcase | ⟨paths, hcase⟩
      · rw [hcase]
      · rw [hcase]
        exact statusOf_congr s _ u (lookup_mkDirFor_ne s.dirs uuid u hne)
      · rw [hcase]
        exact statusOf_congr s _ u (lookup_mkDirFor_ne s.dirs uuid u hne)
  | run uuid paths outcome saveOk errWriteOk sY hmem =>
      have hne : u ≠ uuid := by
        intro he
        subst he
        have hq := hinv.1 u paths hmem
        rw [hq] at ht
        exact absurd ht (by simp [DiagStatus.isTerminal])
      have hpc := perform_cases uuid outcome saveOk errWriteOk s
      rcases hpc.1 with hd | ⟨f, hd⟩
      · exact statusOf_congr s _ u (by rw [show ({ BloodworkPdfAnalysisService.perform_ai_analysis_and_save_results uuid outcome saveOk errWriteOk s with tasks := s.tasks.erase (uuid, paths) } : SysState).dirs = (BloodworkPdfAnalysisService.perform_ai_analysis_and_save_results uuid outcome saveOk errWriteOk s).dirs from rfl, hd])
      · exact statusOf_congr s _ u (by rw [show ({ BloodworkPdfAnalysisService.perform_ai_analysis_and_save_results uuid outcome saveOk errWriteOk s with tasks := s.tasks.erase (uuid, paths) } : SysState).dirs = (BloodworkPdfAnalysisService.perform_ai_analysis_and_save_results uuid outcome saveOk errWriteOk s).dirs from rfl, hd, lookup_setDir_ne s.dirs uuid u f hne])
  | update_info diagnostic_id info sZ => rfl
  | create_diag d cst timestamp now sW => rfl

theorem reach_inv {s : SysState} (h : Reach s) : TasksInv s := by
  induction h with
  | init =>
      exact ⟨fun u ps hmem => absurd hmem (List.not_mem_nil _), List.nodup_nil⟩
  | step hr hstep ih => exact step_inv ih hstep

theorem reach_of_steps {s s2 : SysState} (hr : Reach s) (hs : Steps s s2) : Reach s2 := by
  induction hs with
  | refl => exact hr
  | tail hs hstep ih => exact Reach.step ih hstep

theorem steps_terminal_eq {s s2 : SysState} (hr : Reach s) (hs : Steps s s2)
    (u : String) (ht : (statusOf s u).isTerminal = true) :
    statusOf s2 u = statusOf s u := by
  induction hs with
  | refl => rfl
  | tail hs hstep ih =>
      rename_i sMid sEnd
      have hr2 := reach_of_steps hr hs
      have hinv := reach_inv hr2
      have ht2 : (statusOf sMid u).isTerminal = true := by rw [ih]; exact ht
      rw [step_terminal_eq hinv hstep u ht2, ih]

/-- C6: over every sequence of operations of this subsystem starting from
a reachable state, a record whose observable status has reached a
terminal state (COMPLETED or FAILED) keeps exactly that status: no
sequence of operations takes it back to QUEUED, and no state of the
subsystem ever exhibits a persisted PROCESSING status (the source never
writes one), so the status only moves forward along
QUEUED to COMPLETED-or-FAILED. -/
theorem C6_status_never_regresses (s s2 : SysState) (u : String)
    (hr : Reach s) (hs : Steps s s2)
    (ht : (statusOf s u).isTerminal = true) :
    statusOf s2 u = statusOf s u
    ∧ statusOf s2 u ≠ DiagStatus.queued
    ∧ statusOf s2 u ≠ DiagStatus.processing := by
  have he := steps_terminal_eq hr hs u ht
  refine ⟨he, ?_, statusOf_ne_processing s2 u⟩
  rw [he]
  intro hq
  rw [hq] at ht
  exact absurd ht (by simp [DiagStatus.isTerminal])

/-- The state right after the concrete submit of `goodUpload`. -/
def submitState : SysState :=
  (BloodworkPdfAnalysisService.process_uploaded_pdf_in_background
    goodUpload sampleUuid initState).2

/-- The state after the scheduled background task has completed
successfully. -/
def runState : SysState :=
  { BloodworkPdfAnalysisService.perform_ai_analysis_and_save_results sampleUuid
      (VisionOutcome.success "RESULT") true true submitState with
    tasks := submitState.tasks.erase (sampleUuid, [sampleUuid ++ "_page_1.png"]) }

/-- The state after a further processing-info update on the record
store. -/
def updState : SysState :=
  { runState with ai_diagnostics :=
      (AiDiagnosticRepository.update_processing_info "DGN-001" [] runState.ai_diagnostics).2 }

/-- Witness for C6 along a concrete reachable run: after the background
task completes the record is terminal, and a further operation leaves its
status unchanged. -/
theorem C6_witness :
    (statusOf runState sampleUuid).isTerminal = true
    ∧ statusOf updState sampleUuid = statusOf runState sampleUuid := by
  refine ⟨rfl, ?_⟩
  exact (C6_status_never_regresses runState updState sampleUuid
    (Reach.step (Reach.step Reach.init
        (Step.submit goodUpload sampleUuid initState rfl))
      (Step.run sampleUuid [sampleUuid ++ "_page_1.png"] (VisionOutcome.success "RESULT")
        true true submitState (by decide)))
    (Steps.tail (Steps.refl runState) (Step.update_info "DGN-001" [] runState))
    rfl).1
